import Mathlib

/-!
Verification of the Kubernetes Job task module
(src/prefect/tasks/kubernetes/job.py).

The module defines six task classes (CreateNamespacedJob, DeleteNamespacedJob,
ListNamespacedJob, PatchNamespacedJob, ReadNamespacedJob, ReplaceNamespacedJob),
all following one pattern: validate required fields, resolve credentials in a
three-step fallback, build an API client, merge run-time parameters into the
stored configuration in place, and issue one Kubernetes Batch API call.

The embedding below renders each class as a structure, each run method as a
pure function from the task state, an environment (secret store, ambient
credential loaders, API), and the run-time override arguments, to an outcome
consisting of an event trace, the post-run task state, and either a returned
value or a raised error.
-/

namespace K8sJobTasks

/-- Python dictionaries with string keys and values, as ordered association
lists (first binding of a key wins on lookup; Python dicts hold each key at
most once). -/
abbrev Dict := List (String × String)

/-- Python key lookup: the first binding of the key, if any. -/
def dlookup : Dict → String → Option String
  | [], _ => none
  | (k', v) :: rest, k => if k' = k then some v else dlookup rest k

/-- Python s.update(r): every key of r is bound to its r-value, keys of s not
in r keep their s-value; keys already in s keep their position, keys only in
r are appended in r's order. -/
def dictUpdate (s r : Dict) : Dict :=
  s.map (fun kv =>
    match dlookup r kv.1 with
    | some v => (kv.1, v)
    | none => kv)
  ++ r.filter (fun kv => (dlookup s kv.1).isNone)

/-- The six Kubernetes Batch API operations, carrying exactly the arguments
the source passes: create_namespaced_job(namespace, body, kwargs),
delete_namespaced_job(name, namespace, kwargs), list_namespaced_job(namespace,
kwargs), patch_namespaced_job(namespace, body, kwargs) (the source passes no
name, line 391), read_namespaced_job(name, namespace, kwargs),
replace_namespaced_job(namespace, body, kwargs) (no name, line 596). -/
inductive ApiCall
  | createJob (ns : String) (body : Dict) (kwargs : Dict)
  | deleteJob (name : String) (ns : String) (kwargs : Dict)
  | listJob (ns : String) (kwargs : Dict)
  | patchJob (ns : String) (body : Dict) (kwargs : Dict)
  | readJob (name : String) (ns : String) (kwargs : Dict)
  | replaceJob (ns : String) (body : Dict) (kwargs : Dict)
deriving Repr, DecidableEq

/-- Observable steps of one run invocation, in execution order. -/
inductive Event
  | validate
  | secretLookup (secretName : String)
  | setAuthHeader (token : String)
  | loadInClusterConfig
  | loadKubeConfig
  | buildClient
  | mergeBody
  | mergeKubeKwargs
  | apiCall (c : ApiCall)
deriving Repr, DecidableEq

/-- Errors a run can raise: the ValueError of the required-field checks, an
exception other than ConfigException escaping load_incluster_config, or an
exception escaping load_kube_config. -/
inductive RunError
  | validationError (msg : String)
  | inClusterFailure (msg : String)
  | kubeConfigFailure (msg : String)
deriving Repr, DecidableEq

/-- The resolved credential bound to the client handle: a bearer token taken
from the secret store, or ambient credentials (in-cluster service account or
local kube-config file). -/
inductive Credential
  | bearerToken (token : String)
  | ambient
deriving Repr, DecidableEq

/-- Decidable equality of Except values with decidable components, used to
evaluate run results on concrete inputs. -/
instance {ε α : Type} [DecidableEq ε] [DecidableEq α] :
    DecidableEq (Except ε α) := fun a b =>
  match a, b with
  | Except.ok x, Except.ok y =>
      if h : x = y then isTrue (by rw [h]) else isFalse (by simp [h])
  | Except.error x, Except.error y =>
      if h : x = y then isTrue (by rw [h]) else isFalse (by simp [h])
  | Except.ok _, Except.error _ => isFalse (by simp)
  | Except.error _, Except.ok _ => isFalse (by simp)

/-- Outcome of config.load_incluster_config(): success, the ConfigException
that the source catches (the not-running-in-cluster condition), or any other
exception, which the source does not catch. -/
inductive InClusterOutcome
  | ok
  | configException (msg : String)
  | fatal (msg : String)
deriving Repr, DecidableEq

/-- Outcome of config.load_kube_config(): success or an exception, which the
source does not catch. -/
inductive KubeConfigOutcome
  | ok
  | fatal (msg : String)
deriving Repr, DecidableEq

/-- Modelled from the spec: the external collaborators consumed by a run,
whose code is outside this repository snapshot. secret is the secret-lookup
capability behind prefect.client.Secret(name).get() (get_secret(name) yields a
string or absent); inCluster and kubeConfig are the two ambient credential
loaders of the kubernetes config module; api is the Kubernetes Batch Job API,
returning a result value for each call. -/
structure Env where
  secret : String → Option String
  inCluster : InClusterOutcome
  kubeConfig : KubeConfigOutcome
  api : ApiCall → String

/-- Python truthiness of the looked-up secret: an absent value and the empty
string are falsy, any other string is truthy. -/
def truthy : Option String → Bool
  | none => false
  | some s => !s.isEmpty

/-- Credential resolution, lines 85 to 97 and their verbatim copies in the
other five classes: look the secret up; if truthy, use it as a bearer token;
otherwise try load_incluster_config, and on its ConfigException fall back to
load_kube_config. Exceptions other than that ConfigException, and any
exception of load_kube_config, propagate. -/
def credResult (env : Env) (secretName : String) : Except RunError Credential :=
  let key := env.secret secretName
  if truthy key then
    Except.ok (Credential.bearerToken (key.getD ""))
  else
    match env.inCluster with
    | InClusterOutcome.ok => Except.ok Credential.ambient
    | InClusterOutcome.configException _ =>
        match env.kubeConfig with
        | KubeConfigOutcome.ok => Except.ok Credential.ambient
        | KubeConfigOutcome.fatal msg =>
            Except.error (RunError.kubeConfigFailure msg)
    | InClusterOutcome.fatal msg => Except.error (RunError.inClusterFailure msg)

/-- The events credential resolution emits, alongside credResult: the secret
lookup always happens; in the truthy branch the authorization header is set
and the client built, with no loader attempted; otherwise the in-cluster
loader runs, then on its ConfigException the kube-config loader runs, and the
client is built only when a loader succeeded. -/
def credTrace (env : Env) (secretName : String) : List Event :=
  let key := env.secret secretName
  if truthy key then
    [Event.secretLookup secretName, Event.setAuthHeader (key.getD ""),
     Event.buildClient]
  else
    Event.secretLookup secretName :: Event.loadInClusterConfig ::
      (match env.inCluster with
      | InClusterOutcome.ok => [Event.buildClient]
      | InClusterOutcome.configException _ =>
          match env.kubeConfig with
          | KubeConfigOutcome.ok => [Event.loadKubeConfig, Event.buildClient]
          | KubeConfigOutcome.fatal _ => [Event.loadKubeConfig]
      | InClusterOutcome.fatal _ => [])

/-- Result of one run invocation: the event trace, the task state afterwards
(the source mutates self.body, self.kube_kwargs and self.client in place), and
the returned value (some value for list and read, none for the other verbs) or
the raised error. -/
structure RunOutcome (σ : Type) where
  trace : List Event
  state : σ
  result : Except RunError (Option String)
deriving Repr

/-- Validation message of CreateNamespacedJob.run and
ReplaceNamespacedJob.run, lines 83 and 574. -/
def msgBodyV1Job : String := "A dictionary representing a V1Job must be provided."

/-- Validation message of PatchNamespacedJob.run, lines 367 to 369. -/
def msgBodyPatch : String := "A dictionary representing a V1Job patch must be provided."

/-- Validation message of the name checks, lines 180, 372, 472 and 577. -/
def msgName : String := "The name of a Kubernetes job must be provided."

/-- CreateNamespacedJob's stored configuration, lines 41 to 54: body, the
namespace (field ns here, namespace being reserved in Lean), kube_kwargs, the
secret name, and the client attribute the run methods assign. -/
structure CreateNamespacedJob where
  body : Dict
  ns : String
  kube_kwargs : Dict
  kubernetes_api_key_secret : String
  client : Option Credential
deriving Repr, DecidableEq

/-- CreateNamespacedJob.__init__, lines 41 to 54: body or set-to-empty,
kube_kwargs or set-to-empty; no client yet. -/
def CreateNamespacedJob.init (body : Option Dict) (ns : String)
    (kube_kwargs : Option Dict) (kubernetes_api_key_secret : String) :
    CreateNamespacedJob :=
  { body := body.getD [], ns := ns, kube_kwargs := kube_kwargs.getD [],
    kubernetes_api_key_secret := kubernetes_api_key_secret, client := none }

/-- CreateNamespacedJob.run, lines 59 to 104. Absent arguments fall back to
the stored attributes (the defaults_from_attrs decorator, outside this
snapshot; per the spec, constructor-time defaults merged with run-time
overrides). Then: body check; credential resolution; in-place merge of body
and kube_kwargs; create_namespaced_job(namespace, body merged, raw run-time
kwargs dict), discarding the API result. -/
def CreateNamespacedJob.run (t : CreateNamespacedJob) (env : Env)
    (body : Option Dict) (ns : Option String) (kube_kwargs : Option Dict)
    (kubernetes_api_key_secret : Option String) :
    RunOutcome CreateNamespacedJob :=
  let body := body.getD t.body
  let ns := ns.getD t.ns
  let kube_kwargs := kube_kwargs.getD t.kube_kwargs
  let secretName := kubernetes_api_key_secret.getD t.kubernetes_api_key_secret
  if body.isEmpty then
    { trace := [Event.validate], state := t,
      result := Except.error (RunError.validationError msgBodyV1Job) }
  else
    match credResult env secretName with
    | Except.error e =>
        { trace := Event.validate :: credTrace env secretName, state := t,
          result := Except.error e }
    | Except.ok cred =>
        let mergedBody := dictUpdate t.body body
        let mergedKwargs := dictUpdate t.kube_kwargs kube_kwargs
        let call := ApiCall.createJob ns mergedBody kube_kwargs
        { trace := Event.validate :: credTrace env secretName ++
            [Event.mergeBody, Event.mergeKubeKwargs, Event.apiCall call],
          state := { t with body := mergedBody, kube_kwargs := mergedKwargs,
                            client := some cred },
          result := Except.ok none }

/-- DeleteNamespacedJob's stored configuration, lines 139 to 152. -/
structure DeleteNamespacedJob where
  name : String
  ns : String
  kube_kwargs : Dict
  kubernetes_api_key_secret : String
  client : Option Credential
deriving Repr, DecidableEq

/-- DeleteNamespacedJob.__init__, lines 139 to 152; an absent name is stored
as the empty string (Python None, falsy like the empty string). -/
def DeleteNamespacedJob.init (name : Option String) (ns : String)
    (kube_kwargs : Option Dict) (kubernetes_api_key_secret : String) :
    DeleteNamespacedJob :=
  { name := name.getD "", ns := ns, kube_kwargs := kube_kwargs.getD [],
    kubernetes_api_key_secret := kubernetes_api_key_secret, client := none }

/-- DeleteNamespacedJob.run, lines 157 to 198: name check; credential
resolution; in-place merge of kube_kwargs; delete_namespaced_job(name,
namespace, raw run-time kwargs dict), discarding the API result. -/
def DeleteNamespacedJob.run (t : DeleteNamespacedJob) (env : Env)
    (name : Option String) (ns : Option String) (kube_kwargs : Option Dict)
    (kubernetes_api_key_secret : Option String) :
    RunOutcome DeleteNamespacedJob :=
  let name := name.getD t.name
  let ns := ns.getD t.ns
  let kube_kwargs := kube_kwargs.getD t.kube_kwargs
  let secretName := kubernetes_api_key_secret.getD t.kubernetes_api_key_secret
  if name.isEmpty then
    { trace := [Event.validate], state := t,
      result := Except.error (RunError.validationError msgName) }
  else
    match credResult env secretName with
    | Except.error e =>
        { trace := Event.validate :: credTrace env secretName, state := t,
          result := Except.error e }
    | Except.ok cred =>
        let mergedKwargs := dictUpdate t.kube_kwargs kube_kwargs
        let call := ApiCall.deleteJob name ns kube_kwargs
        { trace := Event.validate :: credTrace env secretName ++
            [Event.mergeKubeKwargs, Event.apiCall call],
          state := { t with kube_kwargs := mergedKwargs, client := some cred },
          result := Except.ok none }

/-- ListNamespacedJob's stored configuration, lines 232 to 243. -/
structure ListNamespacedJob where
  ns : String
  kube_kwargs : Dict
  kubernetes_api_key_secret : String
  client : Option Credential
deriving Repr, DecidableEq

/-- ListNamespacedJob.__init__, lines 232 to 243. -/
def ListNamespacedJob.init (ns : String) (kube_kwargs : Option Dict)
    (kubernetes_api_key_secret : String) : ListNamespacedJob :=
  { ns := ns, kube_kwargs := kube_kwargs.getD [],
    kubernetes_api_key_secret := kubernetes_api_key_secret, client := none }

/-- ListNamespacedJob constructed with no arguments: every constructor
default, lines 232 to 237. -/
def ListNamespacedJob.noArgs : ListNamespacedJob :=
  ListNamespacedJob.init "default" none "KUBERNETES_API_KEY"

/-- ListNamespacedJob.run, lines 246 to 285: no validation; credential
resolution; in-place merge of kube_kwargs; returns
list_namespaced_job(namespace, raw run-time kwargs dict). -/
def ListNamespacedJob.run (t : ListNamespacedJob) (env : Env)
    (ns : Option String) (kube_kwargs : Option Dict)
    (kubernetes_api_key_secret : Option String) :
    RunOutcome ListNamespacedJob :=
  let ns := ns.getD t.ns
  let kube_kwargs := kube_kwargs.getD t.kube_kwargs
  let secretName := kubernetes_api_key_secret.getD t.kubernetes_api_key_secret
  match credResult env secretName with
  | Except.error e =>
      { trace := credTrace env secretName, state := t,
        result := Except.error e }
  | Except.ok cred =>
      let mergedKwargs := dictUpdate t.kube_kwargs kube_kwargs
      let call := ApiCall.listJob ns kube_kwargs
      { trace := credTrace env secretName ++
          [Event.mergeKubeKwargs, Event.apiCall call],
        state := { t with kube_kwargs := mergedKwargs, client := some cred },
        result := Except.ok (some (env.api call)) }

/-- Modelled from the spec: PatchNamespacedJob's stored configuration. The
source constructor, lines 322 to 336, receives name but never assigns
self.name; the run-time default for name is injected by the
defaults_from_attrs decorator reading the attribute off the Task base class,
and neither that decorator nor Task is part of this snapshot. Per the spec's
data model, the Task Configuration stores name (string, resource identifier)
at construction, so name is kept as a stored field here. -/
structure PatchNamespacedJob where
  name : String
  body : Dict
  ns : String
  kube_kwargs : Dict
  kubernetes_api_key_secret : String
  client : Option Credential
deriving Repr, DecidableEq

/-- Modelled from the spec: PatchNamespacedJob.__init__, lines 322 to 336,
with the constructor-supplied name stored (see PatchNamespacedJob). -/
def PatchNamespacedJob.init (name : Option String) (body : Option Dict)
    (ns : String) (kube_kwargs : Option Dict)
    (kubernetes_api_key_secret : String) : PatchNamespacedJob :=
  { name := name.getD "", body := body.getD [], ns := ns,
    kube_kwargs := kube_kwargs.getD [],
    kubernetes_api_key_secret := kubernetes_api_key_secret, client := none }

/-- PatchNamespacedJob.run, lines 341 to 393: body check, then name check;
credential resolution; in-place merge of body and kube_kwargs;
patch_namespaced_job(namespace, body merged, raw run-time kwargs dict) (the
source passes no name to the call), discarding the API result. -/
def PatchNamespacedJob.run (t : PatchNamespacedJob) (env : Env)
    (name : Option String) (body : Option Dict) (ns : Option String)
    (kube_kwargs : Option Dict) (kubernetes_api_key_secret : Option String) :
    RunOutcome PatchNamespacedJob :=
  let name := name.getD t.name
  let body := body.getD t.body
  let ns := ns.getD t.ns
  let kube_kwargs := kube_kwargs.getD t.kube_kwargs
  let secretName := kubernetes_api_key_secret.getD t.kubernetes_api_key_secret
  if body.isEmpty then
    { trace := [Event.validate], state := t,
      result := Except.error (RunError.validationError msgBodyPatch) }
  else if name.isEmpty then
    { trace := [Event.validate], state := t,
      result := Except.error (RunError.validationError msgName) }
  else
    match credResult env secretName with
    | Except.error e =>
        { trace := Event.validate :: credTrace env secretName, state := t,
          result := Except.error e }
    | Except.ok cred =>
        let mergedBody := dictUpdate t.body body
        let mergedKwargs := dictUpdate t.kube_kwargs kube_kwargs
        let call := ApiCall.patchJob ns mergedBody kube_kwargs
        { trace := Event.validate :: credTrace env secretName ++
            [Event.mergeBody, Event.mergeKubeKwargs, Event.apiCall call],
          state := { t with body := mergedBody, kube_kwargs := mergedKwargs,
                            client := some cred },
          result := Except.ok none }

/-- ReadNamespacedJob's stored configuration, lines 428 to 441. -/
structure ReadNamespacedJob where
  name : String
  ns : String
  kube_kwargs : Dict
  kubernetes_api_key_secret : String
  client : Option Credential
deriving Repr, DecidableEq

/-- ReadNamespacedJob.__init__, lines 428 to 441. -/
def ReadNamespacedJob.init (name : Option String) (ns : String)
    (kube_kwargs : Option Dict) (kubernetes_api_key_secret : String) :
    ReadNamespacedJob :=
  { name := name.getD "", ns := ns, kube_kwargs := kube_kwargs.getD [],
    kubernetes_api_key_secret := kubernetes_api_key_secret, client := none }

/-- ReadNamespacedJob.run, lines 446 to 492: name check; credential
resolution; in-place merge of kube_kwargs; returns read_namespaced_job(name,
namespace, raw run-time kwargs dict). -/
def ReadNamespacedJob.run (t : ReadNamespacedJob) (env : Env)
    (name : Option String) (ns : Option String) (kube_kwargs : Option Dict)
    (kubernetes_api_key_secret : Option String) :
    RunOutcome ReadNamespacedJob :=
  let name := name.getD t.name
  let ns := ns.getD t.ns
  let kube_kwargs := kube_kwargs.getD t.kube_kwargs
  let secretName := kubernetes_api_key_secret.getD t.kubernetes_api_key_secret
  if name.isEmpty then
    { trace := [Event.validate], state := t,
      result := Except.error (RunError.validationError msgName) }
  else
    match credResult env secretName with
    | Except.error e =>
        { trace := Event.validate :: credTrace env secretName, state := t,
          result := Except.error e }
    | Except.ok cred =>
        let mergedKwargs := dictUpdate t.kube_kwargs kube_kwargs
        let call := ApiCall.readJob name ns kube_kwargs
        { trace := Event.validate :: credTrace env secretName ++
            [Event.mergeKubeKwargs, Event.apiCall call],
          state := { t with kube_kwargs := mergedKwargs, client := some cred },
          result := Except.ok (some (env.api call)) }

/-- Modelled from the spec: ReplaceNamespacedJob's stored configuration. As
with PatchNamespacedJob, the source constructor, lines 529 to 543, never
assigns self.name and the run-time default for name comes from the Task base
class through defaults_from_attrs, both outside this snapshot; per the spec's
data model the configuration stores name. -/
structure ReplaceNamespacedJob where
  name : String
  body : Dict
  ns : String
  kube_kwargs : Dict
  kubernetes_api_key_secret : String
  client : Option Credential
deriving Repr, DecidableEq

/-- Modelled from the spec: ReplaceNamespacedJob.__init__, lines 529 to 543,
with the constructor-supplied name stored (see ReplaceNamespacedJob). -/
def ReplaceNamespacedJob.init (name : Option String) (body : Option Dict)
    (ns : String) (kube_kwargs : Option Dict)
    (kubernetes_api_key_secret : String) : ReplaceNamespacedJob :=
  { name := name.getD "", body := body.getD [], ns := ns,
    kube_kwargs := kube_kwargs.getD [],
    kubernetes_api_key_secret := kubernetes_api_key_secret, client := none }

/-- ReplaceNamespacedJob.run, lines 548 to 598: body check, then name check;
credential resolution; in-place merge of body and kube_kwargs;
replace_namespaced_job(namespace, body merged, raw run-time kwargs dict) (the
source passes no name to the call), discarding the API result. -/
def ReplaceNamespacedJob.run (t : ReplaceNamespacedJob) (env : Env)
    (name : Option String) (body : Option Dict) (ns : Option String)
    (kube_kwargs : Option Dict) (kubernetes_api_key_secret : Option String) :
    RunOutcome ReplaceNamespacedJob :=
  let name := name.getD t.name
  let body := body.getD t.body
  let ns := ns.getD t.ns
  let kube_kwargs := kube_kwargs.getD t.kube_kwargs
  let secretName := kubernetes_api_key_secret.getD t.kubernetes_api_key_secret
  if body.isEmpty then
    { trace := [Event.validate], state := t,
      result := Except.error (RunError.validationError msgBodyV1Job) }
  else if name.isEmpty then
    { trace := [Event.validate], state := t,
      result := Except.error (RunError.validationError msgName) }
  else
    match credResult env secretName with
    | Except.error e =>
        { trace := Event.validate :: credTrace env secretName, state := t,
          result := Except.error e }
    | Except.ok cred =>
        let mergedBody := dictUpdate t.body body
        let mergedKwargs := dictUpdate t.kube_kwargs kube_kwargs
        let call := ApiCall.replaceJob ns mergedBody kube_kwargs
        { trace := Event.validate :: credTrace env secretName ++
            [Event.mergeBody, Event.mergeKubeKwargs, Event.apiCall call],
          state := { t with body := mergedBody, kube_kwargs := mergedKwargs,
                            client := some cred },
          result := Except.ok none }

/-- Lookup distributes over append: the left list is consulted first. -/
theorem dlookup_append (l1 l2 : Dict) (k : String) :
    dlookup (l1 ++ l2) k =
      match dlookup l1 k with
      | some v => some v
      | none => dlookup l2 k := by
  induction l1 with
  | nil => simp [dlookup]
  | cons hd tl ih =>
    cases hd with
    | mk k' v =>
      by_cases h : k' = k
      · simp [dlookup, h]
      · simp [dlookup, h, ih]

/-- Lookup in the overwrite part of dictUpdate: keys of s keep their position
and take r's value when r binds them. -/
theorem dlookup_mapUpdate (s r : Dict) (k : String) :
    dlookup (s.map (fun kv =>
      match dlookup r kv.1 with
      | some v => (kv.1, v)
      | none => kv)) k =
      match dlookup s k with
      | none => none
      | some v =>
          match dlookup r k with
          | some w => some w
          | none => some v := by
  induction s with
  | nil => simp [dlookup]
  | cons hd tl ih =>
    cases hd with
    | mk k' v' =>
      cases hr : dlookup r k' with
      | none =>
        by_cases h : k' = k
        · subst h
          simp [dlookup, hr]
        · simp [dlookup, hr, h, ih]
      | some w =>
        by_cases h : k' = k
        · subst h
          simp [dlookup, hr]
        · simp [dlookup, hr, h, ih]

/-- Lookup in the appended part of dictUpdate: only keys absent from s
survive the filter. -/
theorem dlookup_filterNew (s r : Dict) (k : String) :
    dlookup (r.filter (fun kv => (dlookup s kv.1).isNone)) k =
      match dlookup s k with
      | some _ => none
      | none => dlookup r k := by
  induction r with
  | nil => cases h : dlookup s k <;> simp [dlookup, h]
  | cons hd tl ih =>
    cases hd with
    | mk k' v' =>
      cases hs : dlookup s k' with
      | none =>
        by_cases h : k' = k
        · subst h
          simp [dlookup, List.filter_cons, hs]
        · simp [dlookup, List.filter_cons, hs, h, ih]
      | some w =>
        by_cases h : k' = k
        · subst h
          simp [dlookup, List.filter_cons, hs, ih]
        · simp [dlookup, List.filter_cons, hs, h, ih]

/-- The merge contract: after dictUpdate s r, a key bound in r has r's value
and any other key keeps its s-value; hence exactly the keys of s and r are
bound. -/
theorem dlookup_dictUpdate (s r : Dict) (k : String) :
    dlookup (dictUpdate s r) k =
      match dlookup r k with
      | some v => some v
      | none => dlookup s k := by
  unfold dictUpdate
  rw [dlookup_append, dlookup_mapUpdate, dlookup_filterNew]
  cases hs : dlookup s k <;> cases hr : dlookup r k <;> simp

/-- The order in which the source executes the phases of a run: validation
first, then credential resolution, then client construction, then the
in-place merges, then the API call. -/
def codePhase : Event → Nat
  | Event.validate => 0
  | Event.secretLookup _ => 1
  | Event.setAuthHeader _ => 1
  | Event.loadInClusterConfig => 1
  | Event.loadKubeConfig => 1
  | Event.buildClient => 2
  | Event.mergeBody => 3
  | Event.mergeKubeKwargs => 3
  | Event.apiCall _ => 4

/-- The phase order asserted by the spec: validate, then merge, then resolve
credentials, then build the client, then call. -/
def claimPhase : Event → Nat
  | Event.validate => 0
  | Event.mergeBody => 1
  | Event.mergeKubeKwargs => 1
  | Event.secretLookup _ => 2
  | Event.setAuthHeader _ => 2
  | Event.loadInClusterConfig => 2
  | Event.loadKubeConfig => 2
  | Event.buildClient => 3
  | Event.apiCall _ => 4

/-- A trace follows a phase order when adjacent events never decrease in
phase. -/
def sortedByPhase (phase : Event → Nat) : List Event → Bool
  | a :: b :: rest => decide (phase a ≤ phase b) && sortedByPhase phase (b :: rest)
  | _ => true

/-- Recognizer for API-call events. -/
def isApiCallEvent : Event → Bool
  | Event.apiCall _ => true
  | _ => false

/-- The pattern list is an initial run of the other list. -/
def beginsWith : List Char → List Char → Bool
  | _, [] => true
  | [], _ :: _ => false
  | c :: cs, p :: ps => c == p && beginsWith cs ps

/-- The pattern list occurs contiguously somewhere in the other list. -/
def containsRun : List Char → List Char → Bool
  | [], pat => beginsWith [] pat
  | c :: cs, pat => beginsWith (c :: cs) pat || containsRun cs pat

/-- The string carries the phrase the spec requires of every required-field
validation message. -/
def containsMBP (s : String) : Bool :=
  containsRun s.toList "must be provided".toList

/-- The run outcome is a raised validation error whose message carries the
required phrase. -/
def isValidationMBP : Except RunError (Option String) → Bool
  | Except.error (RunError.validationError m) => containsMBP m
  | _ => false

/-- With a truthy secret, resolution picks the bearer-token strategy. -/
theorem credResult_truthy (env : Env) (s : String)
    (h : truthy (env.secret s) = true) :
    credResult env s =
      Except.ok (Credential.bearerToken ((env.secret s).getD "")) := by
  unfold credResult
  simp [h]

/-- With a truthy secret, resolution performs only the secret lookup, the
header assignment and the client construction. -/
theorem credTrace_truthy (env : Env) (s : String)
    (h : truthy (env.secret s) = true) :
    credTrace env s =
      [Event.secretLookup s, Event.setAuthHeader ((env.secret s).getD ""),
       Event.buildClient] := by
  unfold credTrace
  simp [h]

/-- With a falsy secret and the in-cluster ConfigException, a failing
kube-config load becomes the resolution error. -/
theorem credResult_fallthrough_fatal (env : Env) (s m m2 : String)
    (h1 : truthy (env.secret s) = false)
    (h2 : env.inCluster = InClusterOutcome.configException m)
    (h3 : env.kubeConfig = KubeConfigOutcome.fatal m2) :
    credResult env s = Except.error (RunError.kubeConfigFailure m2) := by
  unfold credResult
  simp [h1, h2, h3]

/-- With a falsy secret and the in-cluster ConfigException, a successful
kube-config load yields ambient credentials. -/
theorem credResult_fallthrough_ok (env : Env) (s m : String)
    (h1 : truthy (env.secret s) = false)
    (h2 : env.inCluster = InClusterOutcome.configException m)
    (h3 : env.kubeConfig = KubeConfigOutcome.ok) :
    credResult env s = Except.ok Credential.ambient := by
  unfold credResult
  simp [h1, h2, h3]

/-- Trace of the fatal fall-through: secret lookup, in-cluster attempt,
kube-config attempt, and nothing after it. -/
theorem credTrace_fallthrough_fatal (env : Env) (s m m2 : String)
    (h1 : truthy (env.secret s) = false)
    (h2 : env.inCluster = InClusterOutcome.configException m)
    (h3 : env.kubeConfig = KubeConfigOutcome.fatal m2) :
    credTrace env s =
      [Event.secretLookup s, Event.loadInClusterConfig, Event.loadKubeConfig] := by
  unfold credTrace
  simp [h1, h2, h3]

/-- Trace of the successful fall-through: the kube-config loader is attempted
after the in-cluster loader. -/
theorem credTrace_fallthrough_ok (env : Env) (s m : String)
    (h1 : truthy (env.secret s) = false)
    (h2 : env.inCluster = InClusterOutcome.configException m)
    (h3 : env.kubeConfig = KubeConfigOutcome.ok) :
    credTrace env s =
      [Event.secretLookup s, Event.loadInClusterConfig, Event.loadKubeConfig,
       Event.buildClient] := by
  unfold credTrace
  simp [h1, h2, h3]

/-- Credential resolution emits no API-call event in any of its branches. -/
theorem credTrace_no_api (env : Env) (s : String) :
    (credTrace env s).filter isApiCallEvent = [] := by
  unfold credTrace
  cases h1 : truthy (env.secret s) <;>
    cases h2 : env.inCluster <;>
      cases h3 : env.kubeConfig <;>
        simp [h1, h2, h3, isApiCallEvent]

/-- Every possible credential-resolution trace is ordered by the code's
phases, both alone and prolonged with validation before it and merges plus
one API call after it. -/
theorem credTrace_sorted (env : Env) (s : String) (c : ApiCall) :
    sortedByPhase codePhase (credTrace env s) = true ∧
    sortedByPhase codePhase (Event.validate :: credTrace env s) = true ∧
    sortedByPhase codePhase (credTrace env s ++
      [Event.mergeKubeKwargs, Event.apiCall c]) = true ∧
    sortedByPhase codePhase (Event.validate :: credTrace env s ++
      [Event.mergeKubeKwargs, Event.apiCall c]) = true ∧
    sortedByPhase codePhase (Event.validate :: credTrace env s ++
      [Event.mergeBody, Event.mergeKubeKwargs, Event.apiCall c]) = true := by
  unfold credTrace
  cases h1 : truthy (env.secret s) <;>
    cases h2 : env.inCluster <;>
      cases h3 : env.kubeConfig <;>
        simp [h1, h2, h3, sortedByPhase, codePhase]

/-- Create: an empty resolved body raises before anything else runs. -/
theorem create_run_valFail (t : CreateNamespacedJob) (env : Env)
    (b : Option Dict) (n : Option String) (kk : Option Dict)
    (sec : Option String) (h : (b.getD t.body).isEmpty = true) :
    t.run env b n kk sec =
      { trace := [Event.validate], state := t,
        result := Except.error (RunError.validationError msgBodyV1Job) } := by
  unfold CreateNamespacedJob.run
  simp [h]

/-- Create: a credential-resolution failure propagates and leaves the state
untouched, the merges never having run. -/
theorem create_run_credFail (t : CreateNamespacedJob) (env : Env)
    (b : Option Dict) (n : Option String) (kk : Option Dict)
    (sec : Option String) (e : RunError)
    (h1 : (b.getD t.body).isEmpty = false)
    (h2 : credResult env (sec.getD t.kubernetes_api_key_secret) =
      Except.error e) :
    t.run env b n kk sec =
      { trace := Event.validate ::
          credTrace env (sec.getD t.kubernetes_api_key_secret),
        state := t, result := Except.error e } := by
  unfold CreateNamespacedJob.run
  simp [h1, h2]

/-- Create: the successful run in full, with the merged body passed to the
call and the raw run-time kwargs dict passed as the extra options. -/
theorem create_run_ok (t : CreateNamespacedJob) (env : Env)
    (b : Option Dict) (n : Option String) (kk : Option Dict)
    (sec : Option String) (cred : Credential)
    (h1 : (b.getD t.body).isEmpty = false)
    (h2 : credResult env (sec.getD t.kubernetes_api_key_secret) =
      Except.ok cred) :
    t.run env b n kk sec =
      { trace := Event.validate ::
          credTrace env (sec.getD t.kubernetes_api_key_secret) ++
          [Event.mergeBody, Event.mergeKubeKwargs,
           Event.apiCall (ApiCall.createJob (n.getD t.ns)
             (dictUpdate t.body (b.getD t.body)) (kk.getD t.kube_kwargs))],
        state := { t with body := dictUpdate t.body (b.getD t.body),
                          kube_kwargs :=
                            dictUpdate t.kube_kwargs (kk.getD t.kube_kwargs),
                          client := some cred },
        result := Except.ok none } := by
  unfold CreateNamespacedJob.run
  simp [h1, h2]

/-- Delete: an empty resolved name raises before anything else runs. -/
theorem delete_run_valFail (t : DeleteNamespacedJob) (env : Env)
    (n : Option String) (nso : Option String) (kk : Option Dict)
    (sec : Option String) (h : (n.getD t.name).isEmpty = true) :
    t.run env n nso kk sec =
      { trace := [Event.validate], state := t,
        result := Except.error (RunError.validationError msgName) } := by
  unfold DeleteNamespacedJob.run
  simp [h]

/-- Delete: a credential-resolution failure propagates with the state
untouched. -/
theorem delete_run_credFail (t : DeleteNamespacedJob) (env : Env)
    (n : Option String) (nso : Option String) (kk : Option Dict)
    (sec : Option String) (e : RunError)
    (h1 : (n.getD t.name).isEmpty = false)
    (h2 : credResult env (sec.getD t.kubernetes_api_key_secret) =
      Except.error e) :
    t.run env n nso kk sec =
      { trace := Event.validate ::
          credTrace env (sec.getD t.kubernetes_api_key_secret),
        state := t, result := Except.error e } := by
  unfold DeleteNamespacedJob.run
  simp [h1, h2]

/-- Delete: the successful run in full. -/
theorem delete_run_ok (t : DeleteNamespacedJob) (env : Env)
    (n : Option String) (nso : Option String) (kk : Option Dict)
    (sec : Option String) (cred : Credential)
    (h1 : (n.getD t.name).isEmpty = false)
    (h2 : credResult env (sec.getD t.kubernetes_api_key_secret) =
      Except.ok cred) :
    t.run env n nso kk sec =
      { trace := Event.validate ::
          credTrace env (sec.getD t.kubernetes_api_key_secret) ++
          [Event.mergeKubeKwargs,
           Event.apiCall (ApiCall.deleteJob (n.getD t.name) (nso.getD t.ns)
             (kk.getD t.kube_kwargs))],
        state := { t with kube_kwargs :=
                            dictUpdate t.kube_kwargs (kk.getD t.kube_kwargs),
                          client := some cred },
        result := Except.ok none } := by
  unfold DeleteNamespacedJob.run
  simp [h1, h2]

/-- List: a credential-resolution failure propagates with the state
untouched. -/
theorem list_run_credFail (t : ListNamespacedJob) (env : Env)
    (nso : Option String) (kk : Option Dict) (sec : Option String)
    (e : RunError)
    (h : credResult env (sec.getD t.kubernetes_api_key_secret) =
      Except.error e) :
    t.run env nso kk sec =
      { trace := credTrace env (sec.getD t.kubernetes_api_key_secret),
        state := t, result := Except.error e } := by
  unfold ListNamespacedJob.run
  simp [h]

/-- List: the successful run in full, returning the API value. -/
theorem list_run_ok (t : ListNamespacedJob) (env : Env)
    (nso : Option String) (kk : Option Dict) (sec : Option String)
    (cred : Credential)
    (h : credResult env (sec.getD t.kubernetes_api_key_secret) =
      Except.ok cred) :
    t.run env nso kk sec =
      { trace := credTrace env (sec.getD t.kubernetes_api_key_secret) ++
          [Event.mergeKubeKwargs,
           Event.apiCall (ApiCall.listJob (nso.getD t.ns)
             (kk.getD t.kube_kwargs))],
        state := { t with kube_kwargs :=
                            dictUpdate t.kube_kwargs (kk.getD t.kube_kwargs),
                          client := some cred },
        result := Except.ok (some (env.api (ApiCall.listJob (nso.getD t.ns)
          (kk.getD t.kube_kwargs)))) } := by
  unfold ListNamespacedJob.run
  simp [h]

/-- Patch: an empty resolved body raises first. -/
theorem patch_run_bodyFail (t : PatchNamespacedJob) (env : Env)
    (n : Option String) (b : Option Dict) (nso : Option String)
    (kk : Option Dict) (sec : Option String)
    (h : (b.getD t.body).isEmpty = true) :
    t.run env n b nso kk sec =
      { trace := [Event.validate], state := t,
        result := Except.error (RunError.validationError msgBodyPatch) } := by
  unfold PatchNamespacedJob.run
  simp [h]

/-- Patch: with a non-empty body, an empty resolved name raises. -/
theorem patch_run_nameFail (t : PatchNamespacedJob) (env : Env)
    (n : Option String) (b : Option Dict) (nso : Option String)
    (kk : Option Dict) (sec : Option String)
    (h1 : (b.getD t.body).isEmpty = false)
    (h2 : (n.getD t.name).isEmpty = true) :
    t.run env n b nso kk sec =
      { trace := [Event.validate], state := t,
        result := Except.error (RunError.validationError msgName) } := by
  unfold PatchNamespacedJob.run
  simp [h1, h2]

/-- Patch: a credential-resolution failure propagates with the state
untouched. -/
theorem patch_run_credFail (t : PatchNamespacedJob) (env : Env)
    (n : Option String) (b : Option Dict) (nso : Option String)
    (kk : Option Dict) (sec : Option String) (e : RunError)
    (h1 : (b.getD t.body).isEmpty = false)
    (h2 : (n.getD t.name).isEmpty = false)
    (h3 : credResult env (sec.getD t.kubernetes_api_key_secret) =
      Except.error e) :
    t.run env n b nso kk sec =
      { trace := Event.validate ::
          credTrace env (sec.getD t.kubernetes_api_key_secret),
        state := t, result := Except.error e } := by
  unfold PatchNamespacedJob.run
  simp [h1, h2, h3]

/-- Patch: the successful run in full; the call carries the merged body and
the raw run-time kwargs dict, and no name. -/
theorem patch_run_ok (t : PatchNamespacedJob) (env : Env)
    (n : Option String) (b : Option Dict) (nso : Option String)
    (kk : Option Dict) (sec : Option String) (cred : Credential)
    (h1 : (b.getD t.body).isEmpty = false)
    (h2 : (n.getD t.name).isEmpty = false)
    (h3 : credResult env (sec.getD t.kubernetes_api_key_secret) =
      Except.ok cred) :
    t.run env n b nso kk sec =
      { trace := Event.validate ::
          credTrace env (sec.getD t.kubernetes_api_key_secret) ++
          [Event.mergeBody, Event.mergeKubeKwargs,
           Event.apiCall (ApiCall.patchJob (nso.getD t.ns)
             (dictUpdate t.body (b.getD t.body)) (kk.getD t.kube_kwargs))],
        state := { t with body := dictUpdate t.body (b.getD t.body),
                          kube_kwargs :=
                            dictUpdate t.kube_kwargs (kk.getD t.kube_kwargs),
                          client := some cred },
        result := Except.ok none } := by
  unfold PatchNamespacedJob.run
  simp [h1, h2, h3]

/-- Read: an empty resolved name raises before anything else runs. -/
theorem read_run_valFail (t : ReadNamespacedJob) (env : Env)
    (n : Option String) (nso : Option String) (kk : Option Dict)
    (sec : Option String) (h : (n.getD t.name).isEmpty = true) :
    t.run env n nso kk sec =
      { trace := [Event.validate], state := t,
        result := Except.error (RunError.validationError msgName) } := by
  unfold ReadNamespacedJob.run
  simp [h]

/-- Read: a credential-resolution failure propagates with the state
untouched. -/
theorem read_run_credFail (t : ReadNamespacedJob) (env : Env)
    (n : Option String) (nso : Option String) (kk : Option Dict)
    (sec : Option String) (e : RunError)
    (h1 : (n.getD t.name).isEmpty = false)
    (h2 : credResult env (sec.getD t.kubernetes_api_key_secret) =
      Except.error e) :
    t.run env n nso kk sec =
      { trace := Event.validate ::
          credTrace env (sec.getD t.kubernetes_api_key_secret),
        state := t, result := Except.error e } := by
  unfold ReadNamespacedJob.run
  simp [h1, h2]

/-- Read: the successful run in full, returning the API value. -/
theorem read_run_ok (t : ReadNamespacedJob) (env : Env)
    (n : Option String) (nso : Option String) (kk : Option Dict)
    (sec : Option String) (cred : Credential)
    (h1 : (n.getD t.name).isEmpty = false)
    (h2 : credResult env (sec.getD t.kubernetes_api_key_secret) =
      Except.ok cred) :
    t.run env n nso kk sec =
      { trace := Event.validate ::
          credTrace env (sec.getD t.kubernetes_api_key_secret) ++
          [Event.mergeKubeKwargs,
           Event.apiCall (ApiCall.readJob (n.getD t.name) (nso.getD t.ns)
             (kk.getD t.kube_kwargs))],
        state := { t with kube_kwargs :=
                            dictUpdate t.kube_kwargs (kk.getD t.kube_kwargs),
                          client := some cred },
        result := Except.ok (some (env.api (ApiCall.readJob (n.getD t.name)
          (nso.getD t.ns) (kk.getD t.kube_kwargs)))) } := by
  unfold ReadNamespacedJob.run
  simp [h1, h2]

/-- Replace: an empty resolved body raises first. -/
theorem replace_run_bodyFail (t : ReplaceNamespacedJob) (env : Env)
    (n : Option String) (b : Option Dict) (nso : Option String)
    (kk : Option Dict) (sec : Option String)
    (h : (b.getD t.body).isEmpty = true) :
    t.run env n b nso kk sec =
      { trace := [Event.validate], state := t,
        result := Except.error (RunError.validationError msgBodyV1Job) } := by
  unfold ReplaceNamespacedJob.run
  simp [h]

/-- Replace: with a non-empty body, an empty resolved name raises. -/
theorem replace_run_nameFail (t : ReplaceNamespacedJob) (env : Env)
    (n : Option String) (b : Option Dict) (nso : Option String)
    (kk : Option Dict) (sec : Option String)
    (h1 : (b.getD t.body).isEmpty = false)
    (h2 : (n.getD t.name).isEmpty = true) :
    t.run env n b nso kk sec =
      { trace := [Event.validate], state := t,
        result := Except.error (RunError.validationError msgName) } := by
  unfold ReplaceNamespacedJob.run
  simp [h1, h2]

/-- Replace: a credential-resolution failure propagates with the state
untouched. -/
theorem replace_run_credFail (t : ReplaceNamespacedJob) (env : Env)
    (n : Option String) (b : Option Dict) (nso : Option String)
    (kk : Option Dict) (sec : Option String) (e : RunError)
    (h1 : (b.getD t.body).isEmpty = false)
    (h2 : (n.getD t.name).isEmpty = false)
    (h3 : credResult env (sec.getD t.kubernetes_api_key_secret) =
      Except.error e) :
    t.run env n b nso kk sec =
      { trace := Event.validate ::
          credTrace env (sec.getD t.kubernetes_api_key_secret),
        state := t, result := Except.error e } := by
  unfold ReplaceNamespacedJob.run
  simp [h1, h2, h3]

/-- Replace: the successful run in full; the call carries the merged body and
the raw run-time kwargs dict, and no name. -/
theorem replace_run_ok (t : ReplaceNamespacedJob) (env : Env)
    (n : Option String) (b : Option Dict) (nso : Option String)
    (kk : Option Dict) (sec : Option String) (cred : Credential)
    (h1 : (b.getD t.body).isEmpty = false)
    (h2 : (n.getD t.name).isEmpty = false)
    (h3 : credResult env (sec.getD t.kubernetes_api_key_secret) =
      Except.ok cred) :
    t.run env n b nso kk sec =
      { trace := Event.validate ::
          credTrace env (sec.getD t.kubernetes_api_key_secret) ++
          [Event.mergeBody, Event.mergeKubeKwargs,
           Event.apiCall (ApiCall.replaceJob (nso.getD t.ns)
             (dictUpdate t.body (b.getD t.body)) (kk.getD t.kube_kwargs))],
        state := { t with body := dictUpdate t.body (b.getD t.body),
                          kube_kwargs :=
                            dictUpdate t.kube_kwargs (kk.getD t.kube_kwargs),
                          client := some cred },
        result := Except.ok none } := by
  unfold ReplaceNamespacedJob.run
  simp [h1, h2, h3]

/-- A concrete environment whose secret store answers every name with a
bearer token. -/
def envBearer : Env :=
  { secret := fun _ => some "token123",
    inCluster := InClusterOutcome.configException "not in cluster",
    kubeConfig := KubeConfigOutcome.ok,
    api := fun _ => "apiresult" }

/-- A concrete environment with no secret and a working in-cluster loader. -/
def envAmbient : Env :=
  { secret := fun _ => none, inCluster := InClusterOutcome.ok,
    kubeConfig := KubeConfigOutcome.ok, api := fun _ => "apiresult" }

/-- A concrete environment in which every credential strategy fails. -/
def envNoCreds : Env :=
  { secret := fun _ => none,
    inCluster := InClusterOutcome.configException "not in cluster",
    kubeConfig := KubeConfigOutcome.fatal "no kubeconfig file",
    api := fun _ => "apiresult" }

/-- Claim C10: for every verb and every invocation, successful or failing,
run never modifies the stored name, namespace or credential-reference
fields; among the stored configuration fields only the body and kube_kwargs
mappings can change. -/
theorem claim_identity_fields_preserved :
    (∀ (t : CreateNamespacedJob) (env : Env) (b : Option Dict)
       (nso : Option String) (kk : Option Dict) (sec : Option String),
       (t.run env b nso kk sec).state.ns = t.ns ∧
       (t.run env b nso kk sec).state.kubernetes_api_key_secret =
         t.kubernetes_api_key_secret) ∧
    (∀ (t : DeleteNamespacedJob) (env : Env) (n : Option String)
       (nso : Option String) (kk : Option Dict) (sec : Option String),
       (t.run env n nso kk sec).state.name = t.name ∧
       (t.run env n nso kk sec).state.ns = t.ns ∧
       (t.run env n nso kk sec).state.kubernetes_api_key_secret =
         t.kubernetes_api_key_secret) ∧
    (∀ (t : ListNamespacedJob) (env : Env) (nso : Option String)
       (kk : Option Dict) (sec : Option String),
       (t.run env nso kk sec).state.ns = t.ns ∧
       (t.run env nso kk sec).state.kubernetes_api_key_secret =
         t.kubernetes_api_key_secret) ∧
    (∀ (t : PatchNamespacedJob) (env : Env) (n : Option String)
       (b : Option Dict) (nso : Option String) (kk : Option Dict)
       (sec : Option String),
       (t.run env n b nso kk sec).state.name = t.name ∧
       (t.run env n b nso kk sec).state.ns = t.ns ∧
       (t.run env n b nso kk sec).state.kubernetes_api_key_secret =
         t.kubernetes_api_key_secret) ∧
    (∀ (t : ReadNamespacedJob) (env : Env) (n : Option String)
       (nso : Option String) (kk : Option Dict) (sec : Option String),
       (t.run env n nso kk sec).state.name = t.name ∧
       (t.run env n nso kk sec).state.ns = t.ns ∧
       (t.run env n nso kk sec).state.kubernetes_api_key_secret =
         t.kubernetes_api_key_secret) ∧
    (∀ (t : ReplaceNamespacedJob) (env : Env) (n : Option String)
       (b : Option Dict) (nso : Option String) (kk : Option Dict)
       (sec : Option String),
       (t.run env n b nso kk sec).state.name = t.name ∧
       (t.run env n b nso kk sec).state.ns = t.ns ∧
       (t.run env n b nso kk sec).state.kubernetes_api_key_secret =
         t.kubernetes_api_key_secret) := by
  refine ⟨?_, ?_, ?_, ?_, ?_, ?_⟩
  · intro t env b nso kk sec
    unfold CreateNamespacedJob.run
    cases hb : (b.getD t.body).isEmpty <;>
      cases hcred : credResult env (sec.getD t.kubernetes_api_key_secret) <;>
        simp [hb, hcred]
  · intro t env n nso kk sec
    unfold DeleteNamespacedJob.run
    cases hn : (n.getD t.name).isEmpty <;>
      cases hcred : credResult env (sec.getD t.kubernetes_api_key_secret) <;>
        simp [hn, hcred]
  · intro t env nso kk sec
    unfold ListNamespacedJob.run
    cases hcred : credResult env (sec.getD t.kubernetes_api_key_secret) <;>
      simp [hcred]
  · intro t env n b nso kk sec
    unfold PatchNamespacedJob.run
    cases hb : (b.getD t.body).isEmpty <;>
      cases hn : (n.getD t.name).isEmpty <;>
        cases hcred : credResult env (sec.getD t.kubernetes_api_key_secret) <;>
          simp [hb, hn, hcred]
  · intro t env n nso kk sec
    unfold ReadNamespacedJob.run
    cases hn : (n.getD t.name).isEmpty <;>
      cases hcred : credResult env (sec.getD t.kubernetes_api_key_secret) <;>
        simp [hn, hcred]
  · intro t env n b nso kk sec
    unfold ReplaceNamespacedJob.run
    cases hb : (b.getD t.body).isEmpty <;>
      cases hn : (n.getD t.name).isEmpty <;>
        cases hcred : credResult env (sec.getD t.kubernetes_api_key_secret) <;>
          simp [hb, hn, hcred]

/-- Claim C6 counterexample: a concrete create run whose trace violates the
claimed order validate, merge, resolve credentials, build client, call: the
code resolves credentials and builds the client before merging. -/
theorem claim_phase_order_counterexample :
    sortedByPhase claimPhase
      (((CreateNamespacedJob.init (some [("kind", "Job")]) "default" none
          "KUBERNETES_API_KEY").run envBearer none none none none).trace)
      = false := by
  decide

/-- Claim C6 as amended: for every verb and every invocation, the internal
execution follows the strict sequence validate, then resolve credentials,
then build the client, then merge parameters, then issue the call. -/
theorem claim_phase_order_amended :
    (∀ (t : CreateNamespacedJob) (env : Env) (b : Option Dict)
       (nso : Option String) (kk : Option Dict) (sec : Option String),
       sortedByPhase codePhase (t.run env b nso kk sec).trace = true) ∧
    (∀ (t : DeleteNamespacedJob) (env : Env) (n : Option String)
       (nso : Option String) (kk : Option Dict) (sec : Option String),
       sortedByPhase codePhase (t.run env n nso kk sec).trace = true) ∧
    (∀ (t : ListNamespacedJob) (env : Env) (nso : Option String)
       (kk : Option Dict) (sec : Option String),
       sortedByPhase codePhase (t.run env nso kk sec).trace = true) ∧
    (∀ (t : PatchNamespacedJob) (env : Env) (n : Option String)
       (b : Option Dict) (nso : Option String) (kk : Option Dict)
       (sec : Option String),
       sortedByPhase codePhase (t.run env n b nso kk sec).trace = true) ∧
    (∀ (t : ReadNamespacedJob) (env : Env) (n : Option String)
       (nso : Option String) (kk : Option Dict) (sec : Option String),
       sortedByPhase codePhase (t.run env n nso kk sec).trace = true) ∧
    (∀ (t : ReplaceNamespacedJob) (env : Env) (n : Option String)
       (b : Option Dict) (nso : Option String) (kk : Option Dict)
       (sec : Option String),
       sortedByPhase codePhase (t.run env n b nso kk sec).trace = true) := by
  refine ⟨?_, ?_, ?_, ?_, ?_, ?_⟩
  · intro t env b nso kk sec
    cases hb : (b.getD t.body).isEmpty
    · cases hcred : credResult env (sec.getD t.kubernetes_api_key_secret) with
      | error e =>
          rw [create_run_credFail t env b nso kk sec e hb hcred]
          exact (credTrace_sorted env _ (ApiCall.listJob "" [])).2.1
      | ok cred =>
          rw [create_run_ok t env b nso kk sec cred hb hcred]
          exact (credTrace_sorted env _ _).2.2.2.2
    · rw [create_run_valFail t env b nso kk sec hb]
      rfl
  · intro t env n nso kk sec
    cases hn : (n.getD t.name).isEmpty
    · cases hcred : credResult env (sec.getD t.kubernetes_api_key_secret) with
      | error e =>
          rw [delete_run_credFail t env n nso kk sec e hn hcred]
          exact (credTrace_sorted env _ (ApiCall.listJob "" [])).2.1
      | ok cred =>
          rw [delete_run_ok t env n nso kk sec cred hn hcred]
          exact (credTrace_sorted env _ _).2.2.2.1
    · rw [delete_run_valFail t env n nso kk sec hn]
      rfl
  · intro t env nso kk sec
    cases hcred : credResult env (sec.getD t.kubernetes_api_key_secret) with
    | error e =>
        rw [list_run_credFail t env nso kk sec e hcred]
        exact (credTrace_sorted env _ (ApiCall.listJob "" [])).1
    | ok cred =>
        rw [list_run_ok t env nso kk sec cred hcred]
        exact (credTrace_sorted env _ _).2.2.1
  · intro t env n b nso kk sec
    cases hb : (b.getD t.body).isEmpty
    · cases hn : (n.getD t.name).isEmpty
      · cases hcred : credResult env (sec.getD t.kubernetes_api_key_secret) with
        | error e =>
            rw [patch_run_credFail t env n b nso kk sec e hb hn hcred]
            exact (credTrace_sorted env _ (ApiCall.listJob "" [])).2.1
        | ok cred =>
            rw [patch_run_ok t env n b nso kk sec cred hb hn hcred]
            exact (credTrace_sorted env _ _).2.2.2.2
      · rw [patch_run_nameFail t env n b nso kk sec hb hn]
        rfl
    · rw [patch_run_bodyFail t env n b nso kk sec hb]
      rfl
  · intro t env n nso kk sec
    cases hn : (n.getD t.name).isEmpty
    · cases hcred : credResult env (sec.getD t.kubernetes_api_key_secret) with
      | error e =>
          rw [read_run_credFail t env n nso kk sec e hn hcred]
          exact (credTrace_sorted env _ (ApiCall.listJob "" [])).2.1
      | ok cred =>
          rw [read_run_ok t env n nso kk sec cred hn hcred]
          exact (credTrace_sorted env _ _).2.2.2.1
    · rw [read_run_valFail t env n nso kk sec hn]
      rfl
  · intro t env n b nso kk sec
    cases hb : (b.getD t.body).isEmpty
    · cases hn : (n.getD t.name).isEmpty
      · cases hcred : credResult env (sec.getD t.kubernetes_api_key_secret) with
        | error e =>
            rw [replace_run_credFail t env n b nso kk sec e hb hn hcred]
            exact (credTrace_sorted env _ (ApiCall.listJob "" [])).2.1
        | ok cred =>
            rw [replace_run_ok t env n b nso kk sec cred hb hn hcred]
            exact (credTrace_sorted env _ _).2.2.2.2
      · rw [replace_run_nameFail t env n b nso kk sec hb hn]
        rfl
    · rw [replace_run_bodyFail t env n b nso kk sec hb]
      rfl

/-- Claim C2 evaluated at a failing input: a delete task stores kube_kwargs
pretty=true; a run overriding kube_kwargs with dry_run=All issues the API
call with only the raw run-time override, not the merged mapping, although
the stored mapping does become the merged mapping. -/
theorem claim_kwargs_unmerged_bug :
    ((((DeleteNamespacedJob.init (some "myjob") "default"
        (some [("pretty", "true")]) "KUBERNETES_API_KEY").run envBearer
        none none (some [("dry_run", "All")]) none).trace.filter
        isApiCallEvent) =
      [Event.apiCall
        (ApiCall.deleteJob "myjob" "default" [("dry_run", "All")])]) ∧
    (((DeleteNamespacedJob.init (some "myjob") "default"
        (some [("pretty", "true")]) "KUBERNETES_API_KEY").run envBearer
        none none (some [("dry_run", "All")]) none).state.kube_kwargs =
      [("pretty", "true"), ("dry_run", "All")]) ∧
    [("dry_run", "All")] ≠
      dictUpdate [("pretty", "true")] [("dry_run", "All")] := by
  decide

/-- Each of the three validation messages carries the phrase must be
provided. -/
theorem containsMBP_msgs :
    containsMBP msgBodyV1Job = true ∧ containsMBP msgBodyPatch = true ∧
    containsMBP msgName = true := by
  decide

/-- Claim C5: for every verb and every invocation missing a required field
(create: body; delete: name; patch: name and body; read: name; replace: name
and body; list: none), the run fails with a validation error carrying a must
be provided message, raised before any credential resolution and before any
network call: the trace is the validation event alone. -/
theorem claim_validation_first :
    (∀ (t : CreateNamespacedJob) (env : Env) (b : Option Dict)
       (nso : Option String) (kk : Option Dict) (sec : Option String),
       (b.getD t.body).isEmpty = true →
       isValidationMBP (t.run env b nso kk sec).result = true ∧
       (t.run env b nso kk sec).trace = [Event.validate]) ∧
    (∀ (t : DeleteNamespacedJob) (env : Env) (n : Option String)
       (nso : Option String) (kk : Option Dict) (sec : Option String),
       (n.getD t.name).isEmpty = true →
       isValidationMBP (t.run env n nso kk sec).result = true ∧
       (t.run env n nso kk sec).trace = [Event.validate]) ∧
    (∀ (t : PatchNamespacedJob) (env : Env) (n : Option String)
       (b : Option Dict) (nso : Option String) (kk : Option Dict)
       (sec : Option String),
       ((b.getD t.body).isEmpty = true ∨ (n.getD t.name).isEmpty = true) →
       isValidationMBP (t.run env n b nso kk sec).result = true ∧
       (t.run env n b nso kk sec).trace = [Event.validate]) ∧
    (∀ (t : ReadNamespacedJob) (env : Env) (n : Option String)
       (nso : Option String) (kk : Option Dict) (sec : Option String),
       (n.getD t.name).isEmpty = true →
       isValidationMBP (t.run env n nso kk sec).result = true ∧
       (t.run env n nso kk sec).trace = [Event.validate]) ∧
    (∀ (t : ReplaceNamespacedJob) (env : Env) (n : Option String)
       (b : Option Dict) (nso : Option String) (kk : Option Dict)
       (sec : Option String),
       ((b.getD t.body).isEmpty = true ∨ (n.getD t.name).isEmpty = true) →
       isValidationMBP (t.run env n b nso kk sec).result = true ∧
       (t.run env n b nso kk sec).trace = [Event.validate]) := by
  refine ⟨?_, ?_, ?_, ?_, ?_⟩
  · intro t env b nso kk sec h
    rw [create_run_valFail t env b nso kk sec h]
    exact ⟨containsMBP_msgs.1, rfl⟩
  · intro t env n nso kk sec h
    rw [delete_run_valFail t env n nso kk sec h]
    exact ⟨containsMBP_msgs.2.2, rfl⟩
  · intro t env n b nso kk sec h
    cases h with
    | inl hb =>
        rw [patch_run_bodyFail t env n b nso kk sec hb]
        exact ⟨containsMBP_msgs.2.1, rfl⟩
    | inr hn =>
        cases hb : (b.getD t.body).isEmpty
        · rw [patch_run_nameFail t env n b nso kk sec hb hn]
          exact ⟨containsMBP_msgs.2.2, rfl⟩
        · rw [patch_run_bodyFail t env n b nso kk sec hb]
          exact ⟨containsMBP_msgs.2.1, rfl⟩
  · intro t env n nso kk sec h
    rw [read_run_valFail t env n nso kk sec h]
    exact ⟨containsMBP_msgs.2.2, rfl⟩
  · intro t env n b nso kk sec h
    cases h with
    | inl hb =>
        rw [replace_run_bodyFail t env n b nso kk sec hb]
        exact ⟨containsMBP_msgs.1, rfl⟩
    | inr hn =>
        cases hb : (b.getD t.body).isEmpty
        · rw [replace_run_nameFail t env n b nso kk sec hb hn]
          exact ⟨containsMBP_msgs.2.2, rfl⟩
        · rw [replace_run_bodyFail t env n b nso kk sec hb]
          exact ⟨containsMBP_msgs.1, rfl⟩

/-- Claim C5 witness: each validating verb, invoked with the required field
missing, raises the validation error with only the validation event in the
trace. -/
theorem claim_validation_first_witness :
    (isValidationMBP ((CreateNamespacedJob.init none "default" none
        "KUBERNETES_API_KEY").run envAmbient none none none none).result =
        true ∧
      ((CreateNamespacedJob.init none "default" none
        "KUBERNETES_API_KEY").run envAmbient none none none none).trace =
        [Event.validate]) ∧
    (isValidationMBP ((DeleteNamespacedJob.init none "default" none
        "KUBERNETES_API_KEY").run envAmbient none none none none).result =
        true ∧
      ((DeleteNamespacedJob.init none "default" none
        "KUBERNETES_API_KEY").run envAmbient none none none none).trace =
        [Event.validate]) ∧
    (isValidationMBP ((PatchNamespacedJob.init none none "default" none
        "KUBERNETES_API_KEY").run envAmbient none none none none
        none).result = true ∧
      ((PatchNamespacedJob.init none none "default" none
        "KUBERNETES_API_KEY").run envAmbient none none none none
        none).trace = [Event.validate]) ∧
    (isValidationMBP ((ReadNamespacedJob.init none "default" none
        "KUBERNETES_API_KEY").run envAmbient none none none none).result =
        true ∧
      ((ReadNamespacedJob.init none "default" none
        "KUBERNETES_API_KEY").run envAmbient none none none none).trace =
        [Event.validate]) ∧
    (isValidationMBP ((ReplaceNamespacedJob.init none none "default" none
        "KUBERNETES_API_KEY").run envAmbient none none none none
        none).result = true ∧
      ((ReplaceNamespacedJob.init none none "default" none
        "KUBERNETES_API_KEY").run envAmbient none none none none
        none).trace = [Event.validate]) := by
  refine ⟨?_, ?_, ?_, ?_, ?_⟩
  · exact claim_validation_first.1 _ envAmbient none none none none (by decide)
  · exact claim_validation_first.2.1 _ envAmbient none none none none
      (by decide)
  · exact claim_validation_first.2.2.1 _ envAmbient none none none none none
      (Or.inl (by decide))
  · exact claim_validation_first.2.2.2.1 _ envAmbient none none none none
      (by decide)
  · exact claim_validation_first.2.2.2.2 _ envAmbient none none none none none
      (Or.inl (by decide))

/-- Claim C9: whenever run raises the required-field validation error, the
stored configuration is exactly what it was before the call; in particular
the stored body and kube_kwargs mappings are unchanged, the merge side effect
not having occurred. -/
theorem claim_validation_preserves_state :
    (∀ (t : CreateNamespacedJob) (env : Env) (b : Option Dict)
       (nso : Option String) (kk : Option Dict) (sec : Option String),
       (b.getD t.body).isEmpty = true →
       (t.run env b nso kk sec).state = t) ∧
    (∀ (t : DeleteNamespacedJob) (env : Env) (n : Option String)
       (nso : Option String) (kk : Option Dict) (sec : Option String),
       (n.getD t.name).isEmpty = true →
       (t.run env n nso kk sec).state = t) ∧
    (∀ (t : PatchNamespacedJob) (env : Env) (n : Option String)
       (b : Option Dict) (nso : Option String) (kk : Option Dict)
       (sec : Option String),
       ((b.getD t.body).isEmpty = true ∨ (n.getD t.name).isEmpty = true) →
       (t.run env n b nso kk sec).state = t) ∧
    (∀ (t : ReadNamespacedJob) (env : Env) (n : Option String)
       (nso : Option String) (kk : Option Dict) (sec : Option String),
       (n.getD t.name).isEmpty = true →
       (t.run env n nso kk sec).state = t) ∧
    (∀ (t : ReplaceNamespacedJob) (env : Env) (n : Option String)
       (b : Option Dict) (nso : Option String) (kk : Option Dict)
       (sec : Option String),
       ((b.getD t.body).isEmpty = true ∨ (n.getD t.name).isEmpty = true) →
       (t.run env n b nso kk sec).state = t) := by
  refine ⟨?_, ?_, ?_, ?_, ?_⟩
  · intro t env b nso kk sec h
    rw [create_run_valFail t env b nso kk sec h]
  · intro t env n nso kk sec h
    rw [delete_run_valFail t env n nso kk sec h]
  · intro t env n b nso kk sec h
    cases h with
    | inl hb => rw [patch_run_bodyFail t env n b nso kk sec hb]
    | inr hn =>
        cases hb : (b.getD t.body).isEmpty
        · rw [patch_run_nameFail t env n b nso kk sec hb hn]
        · rw [patch_run_bodyFail t env n b nso kk sec hb]
  · intro t env n nso kk sec h
    rw [read_run_valFail t env n nso kk sec h]
  · intro t env n b nso kk sec h
    cases h with
    | inl hb => rw [replace_run_bodyFail t env n b nso kk sec hb]
    | inr hn =>
        cases hb : (b.getD t.body).isEmpty
        · rw [replace_run_nameFail t env n b nso kk sec hb hn]
        · rw [replace_run_bodyFail t env n b nso kk sec hb]

/-- Claim C9 witness: concrete validation failures leave each task exactly as
constructed. -/
theorem claim_validation_preserves_state_witness :
    ((CreateNamespacedJob.init none "default" (some [("p", "1")])
        "KUBERNETES_API_KEY").run envAmbient none none
        (some [("q", "2")]) none).state =
      CreateNamespacedJob.init none "default" (some [("p", "1")])
        "KUBERNETES_API_KEY" ∧
    ((DeleteNamespacedJob.init none "default" none
        "KUBERNETES_API_KEY").run envAmbient none none none none).state =
      DeleteNamespacedJob.init none "default" none "KUBERNETES_API_KEY" ∧
    ((PatchNamespacedJob.init (some "job1") none "default" none
        "KUBERNETES_API_KEY").run envAmbient none none none none
        none).state =
      PatchNamespacedJob.init (some "job1") none "default" none
        "KUBERNETES_API_KEY" ∧
    ((ReadNamespacedJob.init none "default" none
        "KUBERNETES_API_KEY").run envAmbient none none none none).state =
      ReadNamespacedJob.init none "default" none "KUBERNETES_API_KEY" ∧
    ((ReplaceNamespacedJob.init (some "job1") none "default" none
        "KUBERNETES_API_KEY").run envAmbient none none none none
        none).state =
      ReplaceNamespacedJob.init (some "job1") none "default" none
        "KUBERNETES_API_KEY" := by
  refine ⟨?_, ?_, ?_, ?_, ?_⟩
  · exact claim_validation_preserves_state.1 _ envAmbient none none
      (some [("q", "2")]) none (by decide)
  · exact claim_validation_preserves_state.2.1 _ envAmbient none none none
      none (by decide)
  · exact claim_validation_preserves_state.2.2.1 _ envAmbient none none none
      none none (Or.inl (by decide))
  · exact claim_validation_preserves_state.2.2.2.1 _ envAmbient none none
      none none (by decide)
  · exact claim_validation_preserves_state.2.2.2.2 _ envAmbient none none
      none none none (Or.inl (by decide))

/-- Claim C1: for every create, patch and replace task, stored body S and
non-empty run-time body R, a run that reaches its API call works with the
effective body E binding each key to R's value when R binds it and to S's
value otherwise; the API call carries exactly E as its body, and the stored
body afterwards equals E, so the override persists as the new default. -/
theorem claim_body_merge_and_persist :
    (∀ (t : CreateNamespacedJob) (env : Env) (R : Dict)
       (nso : Option String) (kk : Option Dict) (sec : Option String)
       (cred : Credential),
       R.isEmpty = false →
       credResult env (sec.getD t.kubernetes_api_key_secret) =
         Except.ok cred →
       (∀ k, dlookup (dictUpdate t.body R) k =
         match dlookup R k with
         | some v => some v
         | none => dlookup t.body k) ∧
       (t.run env (some R) nso kk sec).state.body = dictUpdate t.body R ∧
       (t.run env (some R) nso kk sec).trace.filter isApiCallEvent =
         [Event.apiCall (ApiCall.createJob (nso.getD t.ns)
           (dictUpdate t.body R) (kk.getD t.kube_kwargs))]) ∧
    (∀ (t : PatchNamespacedJob) (env : Env) (R : Dict) (n : Option String)
       (nso : Option String) (kk : Option Dict) (sec : Option String)
       (cred : Credential),
       R.isEmpty = false →
       (n.getD t.name).isEmpty = false →
       credResult env (sec.getD t.kubernetes_api_key_secret) =
         Except.ok cred →
       (∀ k, dlookup (dictUpdate t.body R) k =
         match dlookup R k with
         | some v => some v
         | none => dlookup t.body k) ∧
       (t.run env n (some R) nso kk sec).state.body = dictUpdate t.body R ∧
       (t.run env n (some R) nso kk sec).trace.filter isApiCallEvent =
         [Event.apiCall (ApiCall.patchJob (nso.getD t.ns)
           (dictUpdate t.body R) (kk.getD t.kube_kwargs))]) ∧
    (∀ (t : ReplaceNamespacedJob) (env : Env) (R : Dict) (n : Option String)
       (nso : Option String) (kk : Option Dict) (sec : Option String)
       (cred : Credential),
       R.isEmpty = false →
       (n.getD t.name).isEmpty = false →
       credResult env (sec.getD t.kubernetes_api_key_secret) =
         Except.ok cred →
       (∀ k, dlookup (dictUpdate t.body R) k =
         match dlookup R k with
         | some v => some v
         | none => dlookup t.body k) ∧
       (t.run env n (some R) nso kk sec).state.body = dictUpdate t.body R ∧
       (t.run env n (some R) nso kk sec).trace.filter isApiCallEvent =
         [Event.apiCall (ApiCall.replaceJob (nso.getD t.ns)
           (dictUpdate t.body R) (kk.getD t.kube_kwargs))]) := by
  refine ⟨?_, ?_, ?_⟩
  · intro t env R nso kk sec cred hR hcred
    rw [create_run_ok t env (some R) nso kk sec cred hR hcred]
    refine ⟨fun k => dlookup_dictUpdate t.body R k, rfl, ?_⟩
    simp [List.filter_append, credTrace_no_api, isApiCallEvent]
  · intro t env R n nso kk sec cred hR hn hcred
    rw [patch_run_ok t env n (some R) nso kk sec cred hR hn hcred]
    refine ⟨fun k => dlookup_dictUpdate t.body R k, rfl, ?_⟩
    simp [List.filter_append, credTrace_no_api, isApiCallEvent]
  · intro t env R n nso kk sec cred hR hn hcred
    rw [replace_run_ok t env n (some R) nso kk sec cred hR hn hcred]
    refine ⟨fun k => dlookup_dictUpdate t.body R k, rfl, ?_⟩
    simp [List.filter_append, credTrace_no_api, isApiCallEvent]

/-- Claim C1 witness: the spec's own scenario. A create task constructed with
body a=1, overridden at run time with body b=2, stores the merged body
a=1, b=2 afterwards; likewise for patch and replace tasks. -/
theorem claim_body_merge_and_persist_witness :
    ((CreateNamespacedJob.init (some [("a", "1")]) "default" none
        "KUBERNETES_API_KEY").run envBearer (some [("b", "2")]) none none
        none).state.body = [("a", "1"), ("b", "2")] ∧
    ((PatchNamespacedJob.init (some "job1") (some [("a", "1")]) "default"
        none "KUBERNETES_API_KEY").run envBearer none (some [("b", "2")])
        none none none).state.body = [("a", "1"), ("b", "2")] ∧
    ((ReplaceNamespacedJob.init (some "job1") (some [("a", "1")]) "default"
        none "KUBERNETES_API_KEY").run envBearer none (some [("b", "2")])
        none none none).state.body = [("a", "1"), ("b", "2")] := by
  refine ⟨?_, ?_, ?_⟩
  · exact (claim_body_merge_and_persist.1 _ envBearer [("b", "2")] none none
      none (Credential.bearerToken "token123") (by decide)
      (by decide)).2.1.trans (by decide)
  · exact (claim_body_merge_and_persist.2.1 _ envBearer [("b", "2")] none
      none none none (Credential.bearerToken "token123") (by decide)
      (by decide) (by decide)).2.1.trans (by decide)
  · exact (claim_body_merge_and_persist.2.2 _ envBearer [("b", "2")] none
      none none none (Credential.bearerToken "token123") (by decide)
      (by decide) (by decide)).2.1.trans (by decide)

/-- Claim C3: whenever the secret resolves to a non-empty string, credential
resolution uses the bearer-token strategy, setting the authorization header
to that token, and neither the in-cluster loader nor the local kube-config
loader is attempted, in resolution itself and in any run of any verb. -/
theorem claim_bearer_short_circuit :
    (∀ (env : Env) (s : String),
       truthy (env.secret s) = true →
       credResult env s =
         Except.ok (Credential.bearerToken ((env.secret s).getD "")) ∧
       credTrace env s =
         [Event.secretLookup s, Event.setAuthHeader ((env.secret s).getD ""),
          Event.buildClient] ∧
       Event.loadInClusterConfig ∉ credTrace env s ∧
       Event.loadKubeConfig ∉ credTrace env s) ∧
    (∀ (t : CreateNamespacedJob) (env : Env) (b : Option Dict)
       (nso : Option String) (kk : Option Dict) (sec : Option String),
       truthy (env.secret (sec.getD t.kubernetes_api_key_secret)) = true →
       Event.loadInClusterConfig ∉ (t.run env b nso kk sec).trace ∧
       Event.loadKubeConfig ∉ (t.run env b nso kk sec).trace) ∧
    (∀ (t : DeleteNamespacedJob) (env : Env) (n : Option String)
       (nso : Option String) (kk : Option Dict) (sec : Option String),
       truthy (env.secret (sec.getD t.kubernetes_api_key_secret)) = true →
       Event.loadInClusterConfig ∉ (t.run env n nso kk sec).trace ∧
       Event.loadKubeConfig ∉ (t.run env n nso kk sec).trace) ∧
    (∀ (t : ListNamespacedJob) (env : Env) (nso : Option String)
       (kk : Option Dict) (sec : Option String),
       truthy (env.secret (sec.getD t.kubernetes_api_key_secret)) = true →
       Event.loadInClusterConfig ∉ (t.run env nso kk sec).trace ∧
       Event.loadKubeConfig ∉ (t.run env nso kk sec).trace) ∧
    (∀ (t : PatchNamespacedJob) (env : Env) (n : Option String)
       (b : Option Dict) (nso : Option String) (kk : Option Dict)
       (sec : Option String),
       truthy (env.secret (sec.getD t.kubernetes_api_key_secret)) = true →
       Event.loadInClusterConfig ∉ (t.run env n b nso kk sec).trace ∧
       Event.loadKubeConfig ∉ (t.run env n b nso kk sec).trace) ∧
    (∀ (t : ReadNamespacedJob) (env : Env) (n : Option String)
       (nso : Option String) (kk : Option Dict) (sec : Option String),
       truthy (env.secret (sec.getD t.kubernetes_api_key_secret)) = true →
       Event.loadInClusterConfig ∉ (t.run env n nso kk sec).trace ∧
       Event.loadKubeConfig ∉ (t.run env n nso kk sec).trace) ∧
    (∀ (t : ReplaceNamespacedJob) (env : Env) (n : Option String)
       (b : Option Dict) (nso : Option String) (kk : Option Dict)
       (sec : Option String),
       truthy (env.secret (sec.getD t.kubernetes_api_key_secret)) = true →
       Event.loadInClusterConfig ∉ (t.run env n b nso kk sec).trace ∧
       Event.loadKubeConfig ∉ (t.run env n b nso kk sec).trace) := by
  refine ⟨?_, ?_, ?_, ?_, ?_, ?_, ?_⟩
  · intro env s h
    refine ⟨credResult_truthy env s h, credTrace_truthy env s h, ?_, ?_⟩ <;>
      rw [credTrace_truthy env s h] <;> simp
  · intro t env b nso kk sec h
    cases hb : (b.getD t.body).isEmpty
    · cases hcred : credResult env (sec.getD t.kubernetes_api_key_secret) with
      | error e =>
          rw [create_run_credFail t env b nso kk sec e hb hcred,
              credTrace_truthy env _ h]
          simp
      | ok cred =>
          rw [create_run_ok t env b nso kk sec cred hb hcred,
              credTrace_truthy env _ h]
          simp
    · rw [create_run_valFail t env b nso kk sec hb]
      simp
  · intro t env n nso kk sec h
    cases hn : (n.getD t.name).isEmpty
    · cases hcred : credResult env (sec.getD t.kubernetes_api_key_secret) with
      | error e =>
          rw [delete_run_credFail t env n nso kk sec e hn hcred,
              credTrace_truthy env _ h]
          simp
      | ok cred =>
          rw [delete_run_ok t env n nso kk sec cred hn hcred,
              credTrace_truthy env _ h]
          simp
    · rw [delete_run_valFail t env n nso kk sec hn]
      simp
  · intro t env nso kk sec h
    cases hcred : credResult env (sec.getD t.kubernetes_api_key_secret) with
    | error e =>
        rw [list_run_credFail t env nso kk sec e hcred,
            credTrace_truthy env _ h]
        simp
    | ok cred =>
        rw [list_run_ok t env nso kk sec cred hcred,
            credTrace_truthy env _ h]
        simp
  · intro t env n b nso kk sec h
    cases hb : (b.getD t.body).isEmpty
    · cases hn : (n.getD t.name).isEmpty
      · cases hcred : credResult env (sec.getD t.kubernetes_api_key_secret)
          with
        | error e =>
            rw [patch_run_credFail t env n b nso kk sec e hb hn hcred,
                credTrace_truthy env _ h]
            simp
        | ok cred =>
            rw [patch_run_ok t env n b nso kk sec cred hb hn hcred,
                credTrace_truthy env _ h]
            simp
      · rw [patch_run_nameFail t env n b nso kk sec hb hn]
        simp
    · rw [patch_run_bodyFail t env n b nso kk sec hb]
      simp
  · intro t env n nso kk sec h
    cases hn : (n.getD t.name).isEmpty
    · cases hcred : credResult env (sec.getD t.kubernetes_api_key_secret) with
      | error e =>
          rw [read_run_credFail t env n nso kk sec e hn hcred,
              credTrace_truthy env _ h]
          simp
      | ok cred =>
          rw [read_run_ok t env n nso kk sec cred hn hcred,
              credTrace_truthy env _ h]
          simp
    · rw [read_run_valFail t env n nso kk sec hn]
      simp
  · intro t env n b nso kk sec h
    cases hb : (b.getD t.body).isEmpty
    · cases hn : (n.getD t.name).isEmpty
      · cases hcred : credResult env (sec.getD t.kubernetes_api_key_secret)
          with
        | error e =>
            rw [replace_run_credFail t env n b nso kk sec e hb hn hcred,
                credTrace_truthy env _ h]
            simp
        | ok cred =>
            rw [replace_run_ok t env n b nso kk sec cred hb hn hcred,
                credTrace_truthy env _ h]
            simp
      · rw [replace_run_nameFail t env n b nso kk sec hb hn]
        simp
    · rw [replace_run_bodyFail t env n b nso kk sec hb]
      simp

/-- Claim C3 witness: with a secret store answering with a token, resolution
picks the bearer strategy with the expected trace, and a concrete run of each
verb attempts neither ambient loader. -/
theorem claim_bearer_short_circuit_witness :
    (credResult envBearer "SECRET_NAME" =
       Except.ok (Credential.bearerToken "token123") ∧
     credTrace envBearer "SECRET_NAME" =
       [Event.secretLookup "SECRET_NAME", Event.setAuthHeader "token123",
        Event.buildClient] ∧
     Event.loadInClusterConfig ∉ credTrace envBearer "SECRET_NAME" ∧
     Event.loadKubeConfig ∉ credTrace envBearer "SECRET_NAME") ∧
    (Event.loadInClusterConfig ∉
       ((CreateNamespacedJob.init (some [("k", "v")]) "default" none
         "KUBERNETES_API_KEY").run envBearer none none none none).trace ∧
     Event.loadKubeConfig ∉
       ((CreateNamespacedJob.init (some [("k", "v")]) "default" none
         "KUBERNETES_API_KEY").run envBearer none none none none).trace) ∧
    (Event.loadInClusterConfig ∉
       ((ListNamespacedJob.noArgs).run envBearer none none none).trace ∧
     Event.loadKubeConfig ∉
       ((ListNamespacedJob.noArgs).run envBearer none none none).trace) := by
  refine ⟨?_, ?_, ?_⟩
  · exact claim_bearer_short_circuit.1 envBearer "SECRET_NAME" (by decide)
  · exact claim_bearer_short_circuit.2.1 _ envBearer none none none none
      (by decide)
  · exact claim_bearer_short_circuit.2.2.2.1 _ envBearer none none none
      (by decide)

/-- Claim C4: when the secret lookup yields nothing and the in-cluster probe
fails with the ConfigException, resolution falls through to the local
kube-config loader; if that also fails, the failure is fatal and propagates
to the caller of every verb, with no further fallback and no retries: the
trace ends at the single kube-config attempt and the error is returned. -/
theorem claim_fallthrough_kubeconfig :
    (∀ (env : Env) (s m : String),
       truthy (env.secret s) = false →
       env.inCluster = InClusterOutcome.configException m →
       Event.loadKubeConfig ∈ credTrace env s ∧
       (env.kubeConfig = KubeConfigOutcome.ok →
         credResult env s = Except.ok Credential.ambient) ∧
       (∀ m2, env.kubeConfig = KubeConfigOutcome.fatal m2 →
         credResult env s = Except.error (RunError.kubeConfigFailure m2) ∧
         credTrace env s =
           [Event.secretLookup s, Event.loadInClusterConfig,
            Event.loadKubeConfig])) ∧
    (∀ (t : CreateNamespacedJob) (env : Env) (b : Option Dict)
       (nso : Option String) (kk : Option Dict) (sec : Option String)
       (m m2 : String),
       truthy (env.secret (sec.getD t.kubernetes_api_key_secret)) = false →
       env.inCluster = InClusterOutcome.configException m →
       env.kubeConfig = KubeConfigOutcome.fatal m2 →
       (b.getD t.body).isEmpty = false →
       t.run env b nso kk sec =
         { trace := [Event.validate,
             Event.secretLookup (sec.getD t.kubernetes_api_key_secret),
             Event.loadInClusterConfig, Event.loadKubeConfig],
           state := t,
           result := Except.error (RunError.kubeConfigFailure m2) }) ∧
    (∀ (t : DeleteNamespacedJob) (env : Env) (n : Option String)
       (nso : Option String) (kk : Option Dict) (sec : Option String)
       (m m2 : String),
       truthy (env.secret (sec.getD t.kubernetes_api_key_secret)) = false →
       env.inCluster = InClusterOutcome.configException m →
       env.kubeConfig = KubeConfigOutcome.fatal m2 →
       (n.getD t.name).isEmpty = false →
       t.run env n nso kk sec =
         { trace := [Event.validate,
             Event.secretLookup (sec.getD t.kubernetes_api_key_secret),
             Event.loadInClusterConfig, Event.loadKubeConfig],
           state := t,
           result := Except.error (RunError.kubeConfigFailure m2) }) ∧
    (∀ (t : ListNamespacedJob) (env : Env) (nso : Option String)
       (kk : Option Dict) (sec : Option String) (m m2 : String),
       truthy (env.secret (sec.getD t.kubernetes_api_key_secret)) = false →
       env.inCluster = InClusterOutcome.configException m →
       env.kubeConfig = KubeConfigOutcome.fatal m2 →
       t.run env nso kk sec =
         { trace := [Event.secretLookup
             (sec.getD t.kubernetes_api_key_secret),
             Event.loadInClusterConfig, Event.loadKubeConfig],
           state := t,
           result := Except.error (RunError.kubeConfigFailure m2) }) ∧
    (∀ (t : PatchNamespacedJob) (env : Env) (n : Option String)
       (b : Option Dict) (nso : Option String) (kk : Option Dict)
       (sec : Option String) (m m2 : String),
       truthy (env.secret (sec.getD t.kubernetes_api_key_secret)) = false →
       env.inCluster = InClusterOutcome.configException m →
       env.kubeConfig = KubeConfigOutcome.fatal m2 →
       (b.getD t.body).isEmpty = false →
       (n.getD t.name).isEmpty = false →
       t.run env n b nso kk sec =
         { trace := [Event.validate,
             Event.secretLookup (sec.getD t.kubernetes_api_key_secret),
             Event.loadInClusterConfig, Event.loadKubeConfig],
           state := t,
           result := Except.error (RunError.kubeConfigFailure m2) }) ∧
    (∀ (t : ReadNamespacedJob) (env : Env) (n : Option String)
       (nso : Option String) (kk : Option Dict) (sec : Option String)
       (m m2 : String),
       truthy (env.secret (sec.getD t.kubernetes_api_key_secret)) = false →
       env.inCluster = InClusterOutcome.configException m →
       env.kubeConfig = KubeConfigOutcome.fatal m2 →
       (n.getD t.name).isEmpty = false →
       t.run env n nso kk sec =
         { trace := [Event.validate,
             Event.secretLookup (sec.getD t.kubernetes_api_key_secret),
             Event.loadInClusterConfig, Event.loadKubeConfig],
           state := t,
           result := Except.error (RunError.kubeConfigFailure m2) }) ∧
    (∀ (t : ReplaceNamespacedJob) (env : Env) (n : Option String)
       (b : Option Dict) (nso : Option String) (kk : Option Dict)
       (sec : Option String) (m m2 : String),
       truthy (env.secret (sec.getD t.kubernetes_api_key_secret)) = false →
       env.inCluster = InClusterOutcome.configException m →
       env.kubeConfig = KubeConfigOutcome.fatal m2 →
       (b.getD t.body).isEmpty = false →
       (n.getD t.name).isEmpty = false →
       t.run env n b nso kk sec =
         { trace := [Event.validate,
             Event.secretLookup (sec.getD t.kubernetes_api_key_secret),
             Event.loadInClusterConfig, Event.loadKubeConfig],
           state := t,
           result := Except.error (RunError.kubeConfigFailure m2) }) := by
  refine ⟨?_, ?_, ?_, ?_, ?_, ?_, ?_⟩
  · intro env s m htr hic
    refine ⟨?_, ?_, ?_⟩
    · cases hkc : env.kubeConfig with
      | ok =>
          rw [credTrace_fallthrough_ok env s m htr hic hkc]
          simp
      | fatal m2 =>
          rw [credTrace_fallthrough_fatal env s m m2 htr hic hkc]
          simp
    · intro hkc
      exact credResult_fallthrough_ok env s m htr hic hkc
    · intro m2 hkc
      exact ⟨credResult_fallthrough_fatal env s m m2 htr hic hkc,
             credTrace_fallthrough_fatal env s m m2 htr hic hkc⟩
  · intro t env b nso kk sec m m2 htr hic hkc hb
    rw [create_run_credFail t env b nso kk sec _ hb
          (credResult_fallthrough_fatal env _ m m2 htr hic hkc),
        credTrace_fallthrough_fatal env _ m m2 htr hic hkc]
  · intro t env n nso kk sec m m2 htr hic hkc hn
    rw [delete_run_credFail t env n nso kk sec _ hn
          (credResult_fallthrough_fatal env _ m m2 htr hic hkc),
        credTrace_fallthrough_fatal env _ m m2 htr hic hkc]
  · intro t env nso kk sec m m2 htr hic hkc
    rw [list_run_credFail t env nso kk sec _
          (credResult_fallthrough_fatal env _ m m2 htr hic hkc),
        credTrace_fallthrough_fatal env _ m m2 htr hic hkc]
  · intro t env n b nso kk sec m m2 htr hic hkc hb hn
    rw [patch_run_credFail t env n b nso kk sec _ hb hn
          (credResult_fallthrough_fatal env _ m m2 htr hic hkc),
        credTrace_fallthrough_fatal env _ m m2 htr hic hkc]
  · intro t env n nso kk sec m m2 htr hic hkc hn
    rw [read_run_credFail t env n nso kk sec _ hn
          (credResult_fallthrough_fatal env _ m m2 htr hic hkc),
        credTrace_fallthrough_fatal env _ m m2 htr hic hkc]
  · intro t env n b nso kk sec m m2 htr hic hkc hb hn
    rw [replace_run_credFail t env n b nso kk sec _ hb hn
          (credResult_fallthrough_fatal env _ m m2 htr hic hkc),
        credTrace_fallthrough_fatal env _ m m2 htr hic hkc]

/-- Claim C4 witness: with an empty secret store, the ConfigException from
the in-cluster probe and a failing kube-config load, resolution ends in the
fatal kube-config error, and a concrete create run returns it with the
stored state untouched. -/
theorem claim_fallthrough_kubeconfig_witness :
    (credResult envNoCreds "SECRET_NAME" =
       Except.error (RunError.kubeConfigFailure "no kubeconfig file") ∧
     credTrace envNoCreds "SECRET_NAME" =
       [Event.secretLookup "SECRET_NAME", Event.loadInClusterConfig,
        Event.loadKubeConfig]) ∧
    (CreateNamespacedJob.init (some [("k", "v")]) "default" none
       "KUBERNETES_API_KEY").run envNoCreds none none none none =
      { trace := [Event.validate, Event.secretLookup "KUBERNETES_API_KEY",
          Event.loadInClusterConfig, Event.loadKubeConfig],
        state := CreateNamespacedJob.init (some [("k", "v")]) "default" none
          "KUBERNETES_API_KEY",
        result := Except.error
          (RunError.kubeConfigFailure "no kubeconfig file") } := by
  constructor
  · exact (claim_fallthrough_kubeconfig.1 envNoCreds "SECRET_NAME"
      "not in cluster" (by decide) (by decide)).2.2 "no kubeconfig file"
      (by decide)
  · exact claim_fallthrough_kubeconfig.2.1 _ envNoCreds none none none none
      "not in cluster" "no kubeconfig file" (by decide) (by decide)
      (by decide) (by decide)

/-- Claim C7: a run that reaches its API call returns the API value for list
and read and returns nothing for create, delete, patch and replace. -/
theorem claim_return_values :
    (∀ (t : CreateNamespacedJob) (env : Env) (b : Option Dict)
       (nso : Option String) (kk : Option Dict) (sec : Option String)
       (cred : Credential),
       (b.getD t.body).isEmpty = false →
       credResult env (sec.getD t.kubernetes_api_key_secret) =
         Except.ok cred →
       (t.run env b nso kk sec).result = Except.ok none) ∧
    (∀ (t : DeleteNamespacedJob) (env : Env) (n : Option String)
       (nso : Option String) (kk : Option Dict) (sec : Option String)
       (cred : Credential),
       (n.getD t.name).isEmpty = false →
       credResult env (sec.getD t.kubernetes_api_key_secret) =
         Except.ok cred →
       (t.run env n nso kk sec).result = Except.ok none) ∧
    (∀ (t : ListNamespacedJob) (env : Env) (nso : Option String)
       (kk : Option Dict) (sec : Option String) (cred : Credential),
       credResult env (sec.getD t.kubernetes_api_key_secret) =
         Except.ok cred →
       (t.run env nso kk sec).result =
         Except.ok (some (env.api (ApiCall.listJob (nso.getD t.ns)
           (kk.getD t.kube_kwargs))))) ∧
    (∀ (t : PatchNamespacedJob) (env : Env) (n : Option String)
       (b : Option Dict) (nso : Option String) (kk : Option Dict)
       (sec : Option String) (cred : Credential),
       (b.getD t.body).isEmpty = false →
       (n.getD t.name).isEmpty = false →
       credResult env (sec.getD t.kubernetes_api_key_secret) =
         Except.ok cred →
       (t.run env n b nso kk sec).result = Except.ok none) ∧
    (∀ (t : ReadNamespacedJob) (env : Env) (n : Option String)
       (nso : Option String) (kk : Option Dict) (sec : Option String)
       (cred : Credential),
       (n.getD t.name).isEmpty = false →
       credResult env (sec.getD t.kubernetes_api_key_secret) =
         Except.ok cred →
       (t.run env n nso kk sec).result =
         Except.ok (some (env.api (ApiCall.readJob (n.getD t.name)
           (nso.getD t.ns) (kk.getD t.kube_kwargs))))) ∧
    (∀ (t : ReplaceNamespacedJob) (env : Env) (n : Option String)
       (b : Option Dict) (nso : Option String) (kk : Option Dict)
       (sec : Option String) (cred : Credential),
       (b.getD t.body).isEmpty = false →
       (n.getD t.name).isEmpty = false →
       credResult env (sec.getD t.kubernetes_api_key_secret) =
         Except.ok cred →
       (t.run env n b nso kk sec).result = Except.ok none) := by
  refine ⟨?_, ?_, ?_, ?_, ?_, ?_⟩
  · intro t env b nso kk sec cred hb hcred
    rw [create_run_ok t env b nso kk sec cred hb hcred]
  · intro t env n nso kk sec cred hn hcred
    rw [delete_run_ok t env n nso kk sec cred hn hcred]
  · intro t env nso kk sec cred hcred
    rw [list_run_ok t env nso kk sec cred hcred]
  · intro t env n b nso kk sec cred hb hn hcred
    rw [patch_run_ok t env n b nso kk sec cred hb hn hcred]
  · intro t env n nso kk sec cred hn hcred
    rw [read_run_ok t env n nso kk sec cred hn hcred]
  · intro t env n b nso kk sec cred hb hn hcred
    rw [replace_run_ok t env n b nso kk sec cred hb hn hcred]

/-- Claim C7 witness: concrete successful runs of the six verbs: list and
read return the API value, the other four return nothing. -/
theorem claim_return_values_witness :
    ((CreateNamespacedJob.init (some [("k", "v")]) "default" none
       "KUBERNETES_API_KEY").run envAmbient none none none none).result =
      Except.ok none ∧
    ((DeleteNamespacedJob.init (some "job1") "default" none
       "KUBERNETES_API_KEY").run envAmbient none none none none).result =
      Except.ok none ∧
    (ListNamespacedJob.noArgs.run envAmbient none none none).result =
      Except.ok (some "apiresult") ∧
    ((PatchNamespacedJob.init (some "job1") (some [("k", "v")]) "default"
       none "KUBERNETES_API_KEY").run envAmbient none none none none
       none).result = Except.ok none ∧
    ((ReadNamespacedJob.init (some "job1") "default" none
       "KUBERNETES_API_KEY").run envAmbient none none none none).result =
      Except.ok (some "apiresult") ∧
    ((ReplaceNamespacedJob.init (some "job1") (some [("k", "v")]) "default"
       none "KUBERNETES_API_KEY").run envAmbient none none none none
       none).result = Except.ok none := by
  refine ⟨?_, ?_, ?_, ?_, ?_, ?_⟩
  · exact claim_return_values.1 _ envAmbient none none none none
      Credential.ambient (by decide) (by decide)
  · exact claim_return_values.2.1 _ envAmbient none none none none
      Credential.ambient (by decide) (by decide)
  · exact claim_return_values.2.2.1 _ envAmbient none none none
      Credential.ambient (by decide)
  · exact claim_return_values.2.2.2.1 _ envAmbient none none none none none
      Credential.ambient (by decide) (by decide) (by decide)
  · exact claim_return_values.2.2.2.2.1 _ envAmbient none none none none
      Credential.ambient (by decide) (by decide)
  · exact claim_return_values.2.2.2.2.2 _ envAmbient none none none none
      none Credential.ambient (by decide) (by decide) (by decide)

/-- Claim C8: a list task constructed with no arguments, invoked with no
overrides, performs exactly one list API call, with namespace default and no
body (the list operation carries none), and returns the collection result. -/
theorem claim_list_default_run (env : Env) (cred : Credential)
    (hcred : credResult env "KUBERNETES_API_KEY" = Except.ok cred) :
    (ListNamespacedJob.noArgs.run env none none none).trace.filter
      isApiCallEvent = [Event.apiCall (ApiCall.listJob "default" [])] ∧
    (ListNamespacedJob.noArgs.run env none none none).result =
      Except.ok (some (env.api (ApiCall.listJob "default" []))) := by
  rw [list_run_ok ListNamespacedJob.noArgs env none none none cred hcred]
  constructor
  · simp [List.filter_append, credTrace_no_api, isApiCallEvent,
      ListNamespacedJob.noArgs, ListNamespacedJob.init]
  · rfl

/-- Claim C8 witness: the no-argument list task run under the concrete
ambient environment. -/
theorem claim_list_default_run_witness :
    (ListNamespacedJob.noArgs.run envAmbient none none none).trace.filter
      isApiCallEvent = [Event.apiCall (ApiCall.listJob "default" [])] ∧
    (ListNamespacedJob.noArgs.run envAmbient none none none).result =
      Except.ok (some "apiresult") :=
  claim_list_default_run envAmbient Credential.ambient (by decide)

end K8sJobTasks
